import Mathlib

/-!
Shallow embedding of the live session-coordination layer of the z-games API
(the GameGateway websocket gateway): presence timers, room index, command
handlers, and their externally visible effects (log creation, room joins and
leaves, targeted emits and global broadcasts).

External collaborators (user lookup, game service mutations, log persistence,
invite service) are passed in as oracle arguments: a handler is a pure
function of the gateway state, the inbound message and the collaborators'
results, returning the new state together with the list of effects it
performed, in program order.
-/

namespace ZGames

/-- Internal database id of a game (the room key). -/
abbrev GameId := Nat

/-- Stable client-facing game number. -/
abbrev GameNumber := Nat

/-- Authenticated user id. -/
abbrev UserId := Nat

/-- Handshake token (keys the connect-debounce map). -/
abbrev Token := Nat

/-- Socket (connection) id. -/
abbrev SocketId := Nat

/-- Populated reference to a game as stored on a user document
(carries both the internal id and the client-facing number). -/
structure GameRef where
  id : GameId
  number : GameNumber
  deriving DecidableEq, Repr

/-- The slice of a User document the gateway reads: identity, the game whose
room a connection joins, and the authorization list for move submission. -/
structure User where
  id : UserId
  openedGame : Option GameRef
  currentGames : List GameRef
  deriving DecidableEq, Repr

/-- The slice of a Game document the gateway reads after a mutation:
internal id, client-facing number, and the state enumeration value. -/
structure Game where
  id : GameId
  number : GameNumber
  state : Nat
  deriving DecidableEq, Repr

/-- State value of a finished game, imported from the z-games-base-game
package (an opaque external constant; only its identity matters). -/
def GAME_FINISHED : Nat := 2

/-- Message payload shapes distinguished by the gateway: the per-viewer
projection parseGameForUser, the public projection parseGameForAllUsers,
the literal null sent as a kick signal, a bare game number, an error text,
and the empty payload. -/
inductive Payload where
  | empty : Payload
  | nullGame : Payload
  | forUser (gameId : GameId) (viewer : UserId) : Payload
  | forAll (gameId : GameId) : Payload
  | gameNum (n : GameNumber) : Payload
  | errorMsg (msg : String) : Payload
  deriving DecidableEq, Repr

/-- One externally visible action of the gateway, in program order. -/
inductive Effect where
  | joinRoom (sid : SocketId) (room : GameId) : Effect
  | leaveRoom (sid : SocketId) (room : GameId) : Effect
  | createLog (ty : String) (userId : UserId) (gameId : GameId) : Effect
  | closeInvites (gameId : GameId) : Effect
  | emit (sid : SocketId) (event : String) (p : Payload) : Effect
  | emitAll (event : String) (p : Payload) : Effect
  deriving DecidableEq, Repr

/-- Live connection: socket id plus the optional authenticated user
attached by the JWT guard. -/
structure Conn where
  sid : SocketId
  user : Option User
  deriving DecidableEq, Repr

/-- Session registry: the live connections and the room index
(pairs of room id and socket id, as maintained by socket.io). -/
structure Server where
  conns : List Conn
  rooms : List (GameId × SocketId)
  deriving DecidableEq, Repr

/-- Socket ids currently joined to a room. -/
def Server.roomSockets (s : Server) (gid : GameId) : List SocketId :=
  (s.rooms.filter (fun p => p.1 == gid)).map (fun p => p.2)

/-- User attached to a socket, if any. -/
def Server.userOf (s : Server) (sid : SocketId) : Option User :=
  match s.conns.find? (fun c => c.sid == sid) with
  | some c => c.user
  | none => none

/-- Effect of client.join: add the socket to the room index. -/
def Server.join (s : Server) (sid : SocketId) (gid : GameId) : Server :=
  { s with rooms := (gid, sid) :: s.rooms }

/-- Effect of client.leave: remove the socket from the room index. -/
def Server.leave (s : Server) (sid : SocketId) (gid : GameId) : Server :=
  { s with rooms := s.rooms.filter (fun p => !(p.1 == gid && p.2 == sid)) }

/-- The sendGameToGameUsers broadcast: if the room is absent do nothing;
otherwise every socket in the room that has a user attached receives
update-opened-game with its own per-viewer projection of the game, and
sockets without a user receive nothing. -/
def sendGameToGameUsers (s : Server) (g : Game) : List Effect :=
  if s.roomSockets g.id = [] then []
  else
    (s.roomSockets g.id).filterMap (fun sid =>
      match s.userOf sid with
      | some u => some (Effect.emit sid "update-opened-game" (Payload.forUser g.id u.id))
      | none => none)

/-- The kickUsersFromGame signal: every socket in the room that has a user
attached receives update-opened-game with a null payload; the room index
is not modified. -/
def kickUsersFromGame (s : Server) (g : Game) : List Effect :=
  if s.roomSockets g.id = [] then []
  else
    (s.roomSockets g.id).filterMap (fun sid =>
      match s.userOf sid with
      | some _ => some (Effect.emit sid "update-opened-game" Payload.nullGame)
      | none => none)

/-- Pending disconnect commit captured by the disconnect timer closure:
the closing socket, the user, and the game reference the closure reads
from user.openedGame. -/
structure Pending where
  sid : SocketId
  userId : UserId
  og : GameRef
  deriving DecidableEq, Repr

/-- Full gateway state: session registry plus the two timer maps
(connect debounce keyed by token, disconnect grace keyed by user id). -/
structure GatewayState where
  server : Server
  connectTimers : List Token
  disconnectTimers : List (UserId × Pending)
  deriving DecidableEq, Repr

/-- The handleConnection handler. Oracle arguments: lookup is the user
found for the token (token verification composed with the user service),
refreshed is the game returned by gameService.findOne on the commit path. -/
def handleConnection (st : GatewayState) (sid : SocketId) (token : Token)
    (lookup : Option User) (refreshed : Game) : GatewayState × List Effect :=
  if st.connectTimers.contains token then
    (st, [])
  else
    let st1 : GatewayState := { st with connectTimers := token :: st.connectTimers }
    match lookup with
    | none => (st1, [])
    | some user =>
      match user.openedGame with
      | none => (st1, [])
      | some og =>
        let st2 : GatewayState := { st1 with server := st1.server.join sid og.id }
        if st2.disconnectTimers.any (fun p => p.1 == user.id) then
          ({ st2 with
              disconnectTimers := st2.disconnectTimers.filter (fun p => !(p.1 == user.id)) },
           [Effect.joinRoom sid og.id])
        else
          (st2,
           Effect.joinRoom sid og.id ::
           Effect.createLog "connect" user.id og.id ::
           sendGameToGameUsers st2.server refreshed ++
           [Effect.emitAll "update-game" (Payload.forAll refreshed.id)])

/-- The handleDisconnect handler: when the token resolves to a user with an
opened game, schedule (or overwrite) that user's disconnect timer; nothing
else happens synchronously. -/
def handleDisconnect (st : GatewayState) (sid : SocketId) (lookup : Option User) :
    GatewayState :=
  match lookup with
  | none => st
  | some user =>
    match user.openedGame with
    | none => st
    | some og =>
      { st with
          disconnectTimers :=
            (user.id, ⟨sid, user.id, og⟩) ::
              st.disconnectTimers.filter (fun p => !(p.1 == user.id)) }

/-- Firing of a disconnect timer after the 4-second grace window: create the
disconnect log, leave the room, broadcast the refreshed per-viewer views to
the room, emit the global update-game summary, and remove the timer entry.
A fire for a user with no pending entry is a no-op. -/
def fireDisconnectTimer (st : GatewayState) (uid : UserId) (refreshed : Game) :
    GatewayState × List Effect :=
  match st.disconnectTimers.find? (fun p => p.1 == uid) with
  | none => (st, [])
  | some (_, pend) =>
    let server' := st.server.leave pend.sid pend.og.id
    ({ st with
        server := server'
        disconnectTimers := st.disconnectTimers.filter (fun p => !(p.1 == uid)) },
     Effect.createLog "disconnect" pend.userId pend.og.id ::
     Effect.leaveRoom pend.sid pend.og.id ::
     sendGameToGameUsers server' refreshed ++
     [Effect.emitAll "update-game" (Payload.forAll refreshed.id)])

/-- Firing of a connect-debounce timer after its 4-second window: the guard
entry for the token is deleted and nothing else happens. -/
def fireConnectTimer (st : GatewayState) (token : Token) : GatewayState :=
  { st with connectTimers := st.connectTimers.filter (fun t => !(t == token)) }

/-- Predicate: the effect creates a Log entity. -/
def isLogEffect : Effect → Bool
  | Effect.createLog _ _ _ => true
  | _ => false

/-- Predicate: the effect creates a Log entity of the given type. -/
def isLogOfType (ty : String) : Effect → Bool
  | Effect.createLog t _ _ => t == ty
  | _ => false

/-- Predicate: the effect is a global broadcast. -/
def isBroadcast : Effect → Bool
  | Effect.emitAll _ _ => true
  | _ => false

/-- Predicate: the effect is a targeted emit to some socket. -/
def isEmitEffect : Effect → Bool
  | Effect.emit _ _ _ => true
  | _ => false

/-- Predicate: the effect is an error-message emit to the given socket. -/
def isErrorTo (sid : SocketId) : Effect → Bool
  | Effect.emit s ev _ => s == sid && ev == "error-message"
  | _ => false

/-- Predicate: the effect is an error-message emit to some other socket. -/
def isErrorNotTo (sid : SocketId) : Effect → Bool
  | Effect.emit s ev _ => !(s == sid) && ev == "error-message"
  | _ => false

/-- Predicate: the effect changes the room index (a join or a leave). -/
def isRoomChange : Effect → Bool
  | Effect.joinRoom _ _ => true
  | Effect.leaveRoom _ _ => true
  | _ => false

/-- Number of log-creation effects in an effect list. -/
def countLogs (l : List Effect) : Nat := l.countP isLogEffect

/-- Number of log-creation effects of a given type. -/
def countLogsOfType (ty : String) (l : List Effect) : Nat := l.countP (isLogOfType ty)

/-- Number of global broadcasts in an effect list. -/
def countBroadcasts (l : List Effect) : Nat := l.countP isBroadcast

/-- Number of targeted emits in an effect list. -/
def countEmits (l : List Effect) : Nat := l.countP isEmitEffect

/-- Number of error-message emits delivered to a given socket. -/
def countErrorsTo (sid : SocketId) (l : List Effect) : Nat := l.countP (isErrorTo sid)

/-- Number of error-message emits delivered to any socket other than the
given one. -/
def countErrorsNotTo (sid : SocketId) (l : List Effect) : Nat :=
  l.countP (isErrorNotTo sid)

/-- Number of room-membership effects (joins or leaves) in an effect list. -/
def countRoomChanges (l : List Effect) : Nat := l.countP isRoomChange

/-- The sendError helper: one error-message emit to the initiating socket
(the logger call is diagnostic output, not a Log entity). -/
def sendError (sid : SocketId) (msg : String) : Effect :=
  Effect.emit sid "error-message" (Payload.errorMsg msg)

/-- The join-game handler. Oracle arguments: svc is the result of
gameService.joinGame, logRes the result of logService.create, refreshed the
game returned by the final gameService.findOne. On a service failure the
code first emits an empty event to the caller and then the error message. -/
def joinGameHandler (s : Server) (sid : SocketId) (user : User)
    (svc : Except String Game) (logRes : Except String Unit)
    (refreshed : Game) : Server × List Effect :=
  match svc with
  | Except.error msg =>
    (s, [Effect.emit sid "" Payload.empty, sendError sid msg])
  | Except.ok game =>
    match logRes with
    | Except.error msg => (s, [sendError sid msg])
    | Except.ok _ =>
      let s' := s.join sid game.id
      (s',
       Effect.createLog "join" user.id game.id ::
       Effect.joinRoom sid game.id ::
       sendGameToGameUsers s' refreshed ++
       [Effect.emitAll "update-game" (Payload.forAll refreshed.id)])

/-- The new-game handler. After creating the game and its create log it
emits the global new-game broadcast and then invokes the join-game path on
the fresh game number, so the join oracle arguments are threaded through. -/
def newGameHandler (s : Server) (sid : SocketId) (user : User)
    (svcNew : Except String Game) (logCreateRes : Except String Unit)
    (svcJoin : Except String Game) (logJoinRes : Except String Unit)
    (refreshed : Game) : Server × List Effect :=
  match svcNew with
  | Except.error msg => (s, [sendError sid msg])
  | Except.ok game =>
    match logCreateRes with
    | Except.error msg => (s, [sendError sid msg])
    | Except.ok _ =>
      let joined := joinGameHandler s sid user svcJoin logJoinRes refreshed
      (joined.1,
       Effect.createLog "create" user.id game.id ::
       Effect.emitAll "new-game" (Payload.forAll game.id) ::
       joined.2)

/-- Error text sent when the caller is not a player of the requested game. -/
def notAPlayerMsg : String :=
  "You cant make move if you are not this game player"

/-- The make-move handler. The player check runs before any service call:
the requested number must appear in the caller's currentGames list. After a
successful move log, a second finish log is created exactly when the
mutated game state is GAME_FINISHED, and the global update-game broadcast
is likewise emitted only for a finished game. -/
def moveHandler (s : Server) (sid : SocketId) (user : User)
    (gameNumber : GameNumber) (svcMove : Except String Game)
    (logMoveRes : Except String Unit) (logFinishRes : Except String Unit)
    (refreshed : Game) : Server × List Effect :=
  if !(user.currentGames.any (fun g => g.number == gameNumber)) then
    (s, [sendError sid notAPlayerMsg])
  else
    match svcMove with
    | Except.error msg => (s, [sendError sid msg])
    | Except.ok game =>
      match logMoveRes with
      | Except.error msg => (s, [sendError sid msg])
      | Except.ok _ =>
        if game.state == GAME_FINISHED then
          match logFinishRes with
          | Except.error msg =>
            (s, [Effect.createLog "move" user.id game.id, sendError sid msg])
          | Except.ok _ =>
            (s,
             Effect.createLog "move" user.id game.id ::
             Effect.createLog "finish" user.id game.id ::
             sendGameToGameUsers s refreshed ++
             [Effect.emitAll "update-game" (Payload.forAll refreshed.id)])
        else
          (s,
           Effect.createLog "move" user.id game.id ::
           sendGameToGameUsers s refreshed)

/-- The remove-game handler. Oracle arguments: found is the game fetched up
front by gameService.findOne, svcRemove the result of gameService.removeGame,
closeRes the result of inviteService.closeInvites. On success every room
member with a user attached is sent the kick signal (the room index itself
is untouched) and the global remove-game broadcast carries the number. -/
def removeGameHandler (s : Server) (sid : SocketId)
    (gameNumber : GameNumber) (found : Game)
    (svcRemove : Except String Unit) (closeRes : Except String Unit) :
    Server × List Effect :=
  match svcRemove with
  | Except.error msg => (s, [sendError sid msg])
  | Except.ok _ =>
    match closeRes with
    | Except.error msg => (s, [sendError sid msg])
    | Except.ok _ =>
      (s,
       Effect.closeInvites found.id ::
       kickUsersFromGame s found ++
       [Effect.emitAll "remove-game" (Payload.gameNum gameNumber)])

/-! Concrete fixtures used to instantiate the theorems on closed inputs. -/

/-- Reference to the sample game: internal id 10, client-facing number 3. -/
def ref10 : GameRef := ⟨10, 3⟩

/-- Sample player: opened game 10, authorized to move in game number 3. -/
def user1 : User := ⟨1, some ref10, [ref10]⟩

/-- Sample watcher of game 10 with no move authorization. -/
def user2 : User := ⟨2, some ref10, []⟩

/-- Sample game in the open state. -/
def game10 : Game := ⟨10, 3, 0⟩

/-- Sample game in the finished state. -/
def game10fin : Game := ⟨10, 3, GAME_FINISHED⟩

/-- Sample registry: sockets 5 and 6 carry users 1 and 2, socket 7 is
anonymous; all three are joined to room 10. -/
def server0 : Server :=
  ⟨[⟨5, some user1⟩, ⟨6, some user2⟩, ⟨7, none⟩], [(10, 5), (10, 6), (10, 7)]⟩

/-- Sample gateway state with no active timers. -/
def st0 : GatewayState := ⟨server0, [], []⟩

/-- Sample gateway state with token 7 guarded and a pending disconnect
commit for user 1 on socket 5. -/
def stGuard : GatewayState := ⟨server0, [7], [(1, ⟨5, 1, ref10⟩)]⟩

/-! Helper lemmas about the broadcast primitives and the list predicates. -/

theorem mem_sendGameToGameUsers (s : Server) (g : Game) (e : Effect)
    (he : e ∈ sendGameToGameUsers s g) :
    ∃ sid u, sid ∈ s.roomSockets g.id ∧ s.userOf sid = some u ∧
      e = Effect.emit sid "update-opened-game" (Payload.forUser g.id u.id) := by
  unfold sendGameToGameUsers at he
  by_cases h : s.roomSockets g.id = []
  · simp [h] at he
  · rw [if_neg h] at he
    obtain ⟨sid, hmem, hsome⟩ := List.mem_filterMap.mp he
    cases hu : s.userOf sid with
    | none => rw [hu] at hsome; cases hsome
    | some u =>
      rw [hu] at hsome
      exact ⟨sid, u, hmem, hu, (Option.some_inj.mp hsome).symm⟩

theorem mem_kickUsersFromGame (s : Server) (g : Game) (e : Effect)
    (he : e ∈ kickUsersFromGame s g) :
    ∃ sid u, sid ∈ s.roomSockets g.id ∧ s.userOf sid = some u ∧
      e = Effect.emit sid "update-opened-game" Payload.nullGame := by
  unfold kickUsersFromGame at he
  by_cases h : s.roomSockets g.id = []
  · simp [h] at he
  · rw [if_neg h] at he
    obtain ⟨sid, hmem, hsome⟩ := List.mem_filterMap.mp he
    cases hu : s.userOf sid with
    | none => rw [hu] at hsome; cases hsome
    | some u =>
      rw [hu] at hsome
      exact ⟨sid, u, hmem, hu, (Option.some_inj.mp hsome).symm⟩

theorem kick_mem_of (s : Server) (g : Game) (sid : SocketId) (u : User)
    (hmem : sid ∈ s.roomSockets g.id) (hu : s.userOf sid = some u) :
    Effect.emit sid "update-opened-game" Payload.nullGame ∈ kickUsersFromGame s g := by
  unfold kickUsersFromGame
  rw [if_neg (List.ne_nil_of_mem hmem)]
  exact List.mem_filterMap.mpr ⟨sid, hmem, by rw [hu]⟩

theorem countP_sendGame_zero (s : Server) (g : Game) (p : Effect → Bool)
    (hp : ∀ sid ev pay, p (Effect.emit sid ev pay) = false) :
    (sendGameToGameUsers s g).countP p = 0 := by
  rw [List.countP_eq_zero]
  intro e he
  obtain ⟨sid, u, _, _, rfl⟩ := mem_sendGameToGameUsers s g e he
  simp [hp]

theorem countP_kick_zero (s : Server) (g : Game) (p : Effect → Bool)
    (hp : ∀ sid ev pay, p (Effect.emit sid ev pay) = false) :
    (kickUsersFromGame s g).countP p = 0 := by
  rw [List.countP_eq_zero]
  intro e he
  obtain ⟨sid, u, _, _, rfl⟩ := mem_kickUsersFromGame s g e he
  simp [hp]

theorem countLogs_sendGame (s : Server) (g : Game) :
    countLogs (sendGameToGameUsers s g) = 0 :=
  countP_sendGame_zero s g isLogEffect (fun _ _ _ => rfl)

theorem countLogsOfType_sendGame (ty : String) (s : Server) (g : Game) :
    countLogsOfType ty (sendGameToGameUsers s g) = 0 :=
  countP_sendGame_zero s g (isLogOfType ty) (fun _ _ _ => rfl)

theorem countBroadcasts_sendGame (s : Server) (g : Game) :
    countBroadcasts (sendGameToGameUsers s g) = 0 :=
  countP_sendGame_zero s g isBroadcast (fun _ _ _ => rfl)

theorem countRoomChanges_sendGame (s : Server) (g : Game) :
    countRoomChanges (sendGameToGameUsers s g) = 0 :=
  countP_sendGame_zero s g isRoomChange (fun _ _ _ => rfl)

theorem countLogs_kick (s : Server) (g : Game) :
    countLogs (kickUsersFromGame s g) = 0 :=
  countP_kick_zero s g isLogEffect (fun _ _ _ => rfl)

theorem countBroadcasts_kick (s : Server) (g : Game) :
    countBroadcasts (kickUsersFromGame s g) = 0 :=
  countP_kick_zero s g isBroadcast (fun _ _ _ => rfl)

theorem countRoomChanges_kick (s : Server) (g : Game) :
    countRoomChanges (kickUsersFromGame s g) = 0 :=
  countP_kick_zero s g isRoomChange (fun _ _ _ => rfl)

theorem contains_filter_beq_false {α : Type} [BEq α] [LawfulBEq α]
    (l : List α) (t : α) :
    (l.filter (fun x => !(x == t))).contains t = false := by
  rw [List.contains_eq_any_beq, List.any_eq_false]
  intro x hx
  have hne := List.of_mem_filter hx
  simp only [Bool.not_eq_true', beq_eq_false_iff_ne, ne_eq] at hne
  simp only [beq_iff_eq]
  exact fun h => hne h.symm

theorem any_filter_not_beq (l : List (UserId × Pending)) (uid : UserId) :
    (l.filter (fun p => !(p.1 == uid))).any (fun p => p.1 == uid) = false := by
  rw [List.any_eq_false]
  intro p hp
  have := List.of_mem_filter hp
  simp at this
  simp [this]

theorem find?_filter_not_beq (l : List (UserId × Pending)) (uid : UserId) :
    (l.filter (fun p => !(p.1 == uid))).find? (fun p => p.1 == uid) = none := by
  rw [List.find?_eq_none]
  intro p hp
  have := List.of_mem_filter hp
  simp at this
  simp [this]

theorem handleConnection_installs_guard (st : GatewayState) (sid : SocketId)
    (token : Token) (lookup : Option User) (refreshed : Game)
    (hc : st.connectTimers.contains token = false) :
    (handleConnection st sid token lookup refreshed).1.connectTimers
      = token :: st.connectTimers := by
  unfold handleConnection
  rw [hc]
  simp only [Bool.false_eq_true, if_false]
  split
  · rfl
  · split
    · rfl
    · split <;> rfl

/-- Claim C5: a connect event whose handshake token already has an active
connect-debounce entry returns before token verification: the gateway state
is unchanged (no room join, no timer change, in particular any pending
disconnect timer survives) and no effect is produced. -/
theorem connect_guard_active_total_noop (st : GatewayState) (sid : SocketId)
    (token : Token) (lookup : Option User) (refreshed : Game)
    (h : st.connectTimers.contains token = true) :
    handleConnection st sid token lookup refreshed = (st, []) ∧
    (handleConnection st sid token lookup refreshed).1.disconnectTimers
      = st.disconnectTimers := by
  have hmain : handleConnection st sid token lookup refreshed = (st, []) := by
    unfold handleConnection
    rw [h]
    simp
  exact ⟨hmain, by rw [hmain]⟩

/-- Witness for C5: with token 7 guarded and a pending disconnect for
user 1, a duplicate connect on socket 9 changes nothing. -/
theorem connect_guard_active_total_noop_witness :
    handleConnection stGuard 9 7 (some user1) game10 = (stGuard, []) ∧
    (handleConnection stGuard 9 7 (some user1) game10).1.disconnectTimers
      = stGuard.disconnectTimers :=
  connect_guard_active_total_noop stGuard 9 7 (some user1) game10 (by decide)

/-- Claim C10: a connect event for an authenticated user whose openedGame
is absent produces no effect at all (no room join, no log, no broadcast)
and leaves the session registry and disconnect timers unchanged. -/
theorem connect_without_opened_game_noop (st : GatewayState) (sid : SocketId)
    (token : Token) (user : User) (refreshed : Game)
    (h : user.openedGame = none) :
    (handleConnection st sid token (some user) refreshed).2 = [] ∧
    (handleConnection st sid token (some user) refreshed).1.server = st.server ∧
    (handleConnection st sid token (some user) refreshed).1.disconnectTimers
      = st.disconnectTimers := by
  unfold handleConnection
  by_cases hc : st.connectTimers.contains token = true
  · rw [hc]; simp
  · rw [Bool.not_eq_true] at hc
    rw [hc]
    simp [h]

/-- Witness for C10: a user with no opened game connecting on socket 9
causes no join, no log and no broadcast. -/
theorem connect_without_opened_game_noop_witness :
    (handleConnection st0 9 7 (some ⟨4, none, []⟩) game10).2 = [] ∧
    (handleConnection st0 9 7 (some ⟨4, none, []⟩) game10).1.server = st0.server ∧
    (handleConnection st0 9 7 (some ⟨4, none, []⟩) game10).1.disconnectTimers
      = st0.disconnectTimers :=
  connect_without_opened_game_noop st0 9 7 ⟨4, none, []⟩ game10 (by decide)

/-- Claim C7: the connect-debounce lifecycle. A first connect attempt for a
token installs the guard entry; a duplicate attempt while the guard is
active is ignored entirely; expiry of the guard window removes the entry,
after which a connect with the same token proceeds normally (it passes the
guard and installs a fresh entry). -/
theorem connect_guard_lifecycle (st : GatewayState) (sid : SocketId)
    (token : Token) (lookup : Option User) (refreshed : Game) :
    (st.connectTimers.contains token = false →
      (handleConnection st sid token lookup refreshed).1.connectTimers.contains token
        = true) ∧
    (st.connectTimers.contains token = true →
      handleConnection st sid token lookup refreshed = (st, [])) ∧
    (fireConnectTimer st token).connectTimers.contains token = false ∧
    (handleConnection (fireConnectTimer st token) sid token lookup refreshed).1.connectTimers.contains token
      = true := by
  have hfire : (fireConnectTimer st token).connectTimers.contains token = false :=
    contains_filter_beq_false st.connectTimers token
  refine ⟨?_, ?_, hfire, ?_⟩
  · intro hc
    rw [handleConnection_installs_guard st sid token lookup refreshed hc]
    simp
  · intro hc
    exact (connect_guard_active_total_noop st sid token lookup refreshed hc).1
  · rw [handleConnection_installs_guard _ sid token lookup refreshed hfire]
    simp

/-- Witness for C7: token 7 fresh in st0 gets a guard installed; token 7
guarded in stGuard is ignored. -/
theorem connect_guard_lifecycle_witness :
    (handleConnection st0 9 7 (some user1) game10).1.connectTimers.contains 7 = true ∧
    handleConnection stGuard 9 7 (some user1) game10 = (stGuard, []) :=
  ⟨(connect_guard_lifecycle st0 9 7 (some user1) game10).1 (by decide),
   (connect_guard_lifecycle stGuard 9 7 (some user1) game10).2.1 (by decide)⟩

theorem handleDisconnect_eq (st : GatewayState) (sid : SocketId) (user : User)
    (og : GameRef) (hog : user.openedGame = some og) :
    handleDisconnect st sid (some user)
      = { st with disconnectTimers :=
            (user.id, ⟨sid, user.id, og⟩) ::
              st.disconnectTimers.filter (fun p => !(p.1 == user.id)) } := by
  simp [handleDisconnect, hog]

theorem fireDisconnectTimer_head (st : GatewayState) (uid : UserId) (pend : Pending)
    (l : List (UserId × Pending)) (refreshed : Game)
    (hd : st.disconnectTimers = (uid, pend) :: l) :
    fireDisconnectTimer st uid refreshed
      = ({ st with
            server := st.server.leave pend.sid pend.og.id,
            disconnectTimers := ((uid, pend) :: l).filter (fun p => !(p.1 == uid)) },
         Effect.createLog "disconnect" pend.userId pend.og.id ::
         Effect.leaveRoom pend.sid pend.og.id ::
         sendGameToGameUsers (st.server.leave pend.sid pend.og.id) refreshed ++
         [Effect.emitAll "update-game" (Payload.forAll refreshed.id)]) := by
  unfold fireDisconnectTimer
  rw [hd]
  simp [List.find?]

theorem fireDisconnectTimer_none (st : GatewayState) (uid : UserId) (g : Game)
    (h : st.disconnectTimers.find? (fun p => p.1 == uid) = none) :
    fireDisconnectTimer st uid g = (st, []) := by
  unfold fireDisconnectTimer
  rw [h]

/-- Claim C6: a disconnect for a user with an opened game whose grace window
elapses unchallenged commits exactly once: the effect trace of the timer
fire is exactly one disconnect log, the leave of the opened game room, the
per-viewer room broadcast of the refreshed game and the global update-game
summary; the socket is removed from the room index, the timer entry for the
user is gone afterwards, and a second fire for that user is a no-op. -/
theorem disconnect_grace_commit (st : GatewayState) (sid : SocketId)
    (user : User) (og : GameRef) (refreshed : Game)
    (hog : user.openedGame = some og) :
    (fireDisconnectTimer (handleDisconnect st sid (some user)) user.id refreshed).2
      = Effect.createLog "disconnect" user.id og.id ::
        Effect.leaveRoom sid og.id ::
        sendGameToGameUsers (st.server.leave sid og.id) refreshed ++
        [Effect.emitAll "update-game" (Payload.forAll refreshed.id)] ∧
    countLogsOfType "disconnect"
      (fireDisconnectTimer (handleDisconnect st sid (some user)) user.id refreshed).2 = 1 ∧
    countLogs
      (fireDisconnectTimer (handleDisconnect st sid (some user)) user.id refreshed).2 = 1 ∧
    countBroadcasts
      (fireDisconnectTimer (handleDisconnect st sid (some user)) user.id refreshed).2 = 1 ∧
    (fireDisconnectTimer (handleDisconnect st sid (some user)) user.id refreshed).1.server
      = st.server.leave sid og.id ∧
    (fireDisconnectTimer (handleDisconnect st sid (some user)) user.id
        refreshed).1.disconnectTimers.find? (fun p => p.1 == user.id) = none ∧
    (∀ g2, fireDisconnectTimer
        (fireDisconnectTimer (handleDisconnect st sid (some user)) user.id refreshed).1
        user.id g2
      = ((fireDisconnectTimer (handleDisconnect st sid (some user)) user.id refreshed).1,
         [])) := by
  have hd := handleDisconnect_eq st sid user og hog
  have hdt : (handleDisconnect st sid (some user)).disconnectTimers
      = (user.id, ⟨sid, user.id, og⟩) ::
          st.disconnectTimers.filter (fun p => !(p.1 == user.id)) := by
    rw [hd]
  have hsrv : (handleDisconnect st sid (some user)).server = st.server := by
    rw [hd]
  have hfire := fireDisconnectTimer_head (handleDisconnect st sid (some user))
    user.id ⟨sid, user.id, og⟩ (st.disconnectTimers.filter (fun p => !(p.1 == user.id)))
    refreshed hdt
  rw [hsrv] at hfire
  have heffs : (fireDisconnectTimer (handleDisconnect st sid (some user)) user.id
      refreshed).2
      = Effect.createLog "disconnect" user.id og.id ::
        Effect.leaveRoom sid og.id ::
        sendGameToGameUsers (st.server.leave sid og.id) refreshed ++
        [Effect.emitAll "update-game" (Payload.forAll refreshed.id)] := by
    rw [hfire]
  have hstate : (fireDisconnectTimer (handleDisconnect st sid (some user)) user.id
      refreshed).1
      = { handleDisconnect st sid (some user) with
            server := st.server.leave sid og.id,
            disconnectTimers :=
              ((user.id, (⟨sid, user.id, og⟩ : Pending)) ::
                  st.disconnectTimers.filter (fun p => !(p.1 == user.id))).filter
                (fun p => !(p.1 == user.id)) } := by
    rw [hfire]
  have hnone : (fireDisconnectTimer (handleDisconnect st sid (some user)) user.id
      refreshed).1.disconnectTimers.find? (fun p => p.1 == user.id) = none := by
    rw [hstate]
    exact find?_filter_not_beq _ _
  refine ⟨heffs, ?_, ?_, ?_, ?_, hnone, ?_⟩
  · rw [heffs]
    simp [countLogsOfType, List.countP_cons, List.countP_append, isLogOfType,
      countP_sendGame_zero _ _ (isLogOfType "disconnect") (fun _ _ _ => rfl)]
  · rw [heffs]
    simp [countLogs, List.countP_cons, List.countP_append, isLogEffect,
      countP_sendGame_zero _ _ isLogEffect (fun _ _ _ => rfl)]
  · rw [heffs]
    simp [countBroadcasts, List.countP_cons, List.countP_append, isBroadcast,
      countP_sendGame_zero _ _ isBroadcast (fun _ _ _ => rfl)]
  · rw [hstate]
  · intro g2
    exact fireDisconnectTimer_none _ _ _ hnone

/-- Claim C2 (amended): a disconnect followed within the grace window by a
reconnect for the same user cancels the pending commit: zero disconnect and
zero connect log entries, zero broadcasts and zero targeted emits, the
disconnect timer is cancelled (a later fire is a no-op), but the
reconnecting socket IS joined to the opened game room, so the room index
gains that connection (the user stays a room member throughout). -/
theorem reconnect_cancels_pending_disconnect (st : GatewayState)
    (sid sid2 : SocketId) (token : Token) (user : User) (og : GameRef)
    (refreshed : Game)
    (hog : user.openedGame = some og)
    (hguard : st.connectTimers.contains token = false) :
    (handleConnection (handleDisconnect st sid (some user)) sid2 token (some user)
        refreshed).2 = [Effect.joinRoom sid2 og.id] ∧
    countLogs (handleConnection (handleDisconnect st sid (some user)) sid2 token
        (some user) refreshed).2 = 0 ∧
    countBroadcasts (handleConnection (handleDisconnect st sid (some user)) sid2 token
        (some user) refreshed).2 = 0 ∧
    countEmits (handleConnection (handleDisconnect st sid (some user)) sid2 token
        (some user) refreshed).2 = 0 ∧
    (handleConnection (handleDisconnect st sid (some user)) sid2 token (some user)
        refreshed).1.server = st.server.join sid2 og.id ∧
    (handleConnection (handleDisconnect st sid (some user)) sid2 token (some user)
        refreshed).1.disconnectTimers.find? (fun p => p.1 == user.id) = none ∧
    (∀ g2, fireDisconnectTimer
        (handleConnection (handleDisconnect st sid (some user)) sid2 token (some user)
          refreshed).1 user.id g2
      = ((handleConnection (handleDisconnect st sid (some user)) sid2 token (some user)
          refreshed).1, [])) := by
  have hmain : handleConnection (handleDisconnect st sid (some user)) sid2 token
      (some user) refreshed
      = ({ st with
            server := st.server.join sid2 og.id,
            connectTimers := token :: st.connectTimers,
            disconnectTimers :=
              ((user.id, (⟨sid, user.id, og⟩ : Pending)) ::
                  st.disconnectTimers.filter (fun p => !(p.1 == user.id))).filter
                (fun p => !(p.1 == user.id)) },
         [Effect.joinRoom sid2 og.id]) := by
    have hguard2 : token ∉ st.connectTimers := by simpa using hguard
    rw [handleDisconnect_eq st sid user og hog]
    unfold handleConnection
    simp [hguard2, hog, List.any_cons]
  have hnone : (handleConnection (handleDisconnect st sid (some user)) sid2 token
      (some user) refreshed).1.disconnectTimers.find? (fun p => p.1 == user.id)
      = none := by
    rw [hmain]
    exact find?_filter_not_beq _ _
  refine ⟨?_, ?_, ?_, ?_, ?_, hnone, ?_⟩
  · rw [hmain]
  · rw [hmain]; rfl
  · rw [hmain]; rfl
  · rw [hmain]; rfl
  · rw [hmain]
  · intro g2
    exact fireDisconnectTimer_none _ _ _ hnone

/-- Witness for C2 (amended): user 1 drops on socket 5 and reconnects on
socket 9 before the window elapses; no logs, no broadcasts, timer gone. -/
theorem reconnect_cancels_pending_disconnect_witness :
    (handleConnection (handleDisconnect st0 5 (some user1)) 9 7 (some user1)
        game10).2 = [Effect.joinRoom 9 ref10.id] ∧
    countLogs (handleConnection (handleDisconnect st0 5 (some user1)) 9 7
        (some user1) game10).2 = 0 ∧
    (handleConnection (handleDisconnect st0 5 (some user1)) 9 7 (some user1)
        game10).1.disconnectTimers.find? (fun p => p.1 == user1.id) = none :=
  ⟨(reconnect_cancels_pending_disconnect st0 5 9 7 user1 ref10 game10 (by decide)
      (by decide)).1,
   (reconnect_cancels_pending_disconnect st0 5 9 7 user1 ref10 game10 (by decide)
      (by decide)).2.1,
   (reconnect_cancels_pending_disconnect st0 5 9 7 user1 ref10 game10 (by decide)
      (by decide)).2.2.2.2.2.1⟩

/-- Counterexample to C2 as stated: on the cancel path the reconnecting
socket is joined to the opened game room, so the room index does change
(one room-membership effect, and the room gains socket 9): the claimed
zero room-membership churn does not hold. -/
theorem reconnect_zero_churn_counterexample :
    countRoomChanges (handleConnection (handleDisconnect st0 5 (some user1)) 9 7
        (some user1) game10).2 = 1 ∧
    (handleConnection (handleDisconnect st0 5 (some user1)) 9 7 (some user1)
        game10).1.server.rooms ≠ st0.server.rooms := by
  decide

/-- Witness for C6: user 1 disconnecting on socket 5 and letting the window
elapse yields exactly one disconnect log and one global broadcast. -/
theorem disconnect_grace_commit_witness :
    countLogsOfType "disconnect"
      (fireDisconnectTimer (handleDisconnect st0 5 (some user1)) user1.id game10).2 = 1 ∧
    countLogs
      (fireDisconnectTimer (handleDisconnect st0 5 (some user1)) user1.id game10).2 = 1 ∧
    (fireDisconnectTimer (handleDisconnect st0 5 (some user1)) user1.id game10).1.server
      = st0.server.leave 5 ref10.id :=
  ⟨(disconnect_grace_commit st0 5 user1 ref10 game10 (by decide)).2.1,
   (disconnect_grace_commit st0 5 user1 ref10 game10 (by decide)).2.2.1,
   (disconnect_grace_commit st0 5 user1 ref10 game10 (by decide)).2.2.2.2.1⟩

/-- Claim C8: a make-move command whose game number is not in the caller's
currentGames list fails with the not-a-player error delivered to the caller
only: the registry is unchanged and no log, no broadcast and no other emit
is produced. -/
theorem move_not_a_player (s : Server) (sid : SocketId) (user : User)
    (gameNumber : GameNumber) (svcMove : Except String Game)
    (lm lf : Except String Unit) (refreshed : Game)
    (h : user.currentGames.any (fun g => g.number == gameNumber) = false) :
    moveHandler s sid user gameNumber svcMove lm lf refreshed
      = (s, [sendError sid notAPlayerMsg]) ∧
    countLogs (moveHandler s sid user gameNumber svcMove lm lf refreshed).2 = 0 ∧
    countBroadcasts (moveHandler s sid user gameNumber svcMove lm lf refreshed).2 = 0 ∧
    countErrorsTo sid (moveHandler s sid user gameNumber svcMove lm lf refreshed).2 = 1 ∧
    countErrorsNotTo sid (moveHandler s sid user gameNumber svcMove lm lf refreshed).2
      = 0 := by
  have hmain : moveHandler s sid user gameNumber svcMove lm lf refreshed
      = (s, [sendError sid notAPlayerMsg]) := by
    unfold moveHandler
    rw [h]
    simp
  refine ⟨hmain, ?_, ?_, ?_, ?_⟩ <;>
    rw [hmain] <;>
    simp [countLogs, countBroadcasts, countErrorsTo, countErrorsNotTo, sendError,
      isLogEffect, isBroadcast, isErrorTo, isErrorNotTo, List.countP_cons]

/-- Witness for C8: user 2 (empty currentGames) attempting a move in game
number 3 gets exactly the not-a-player error and nothing else. -/
theorem move_not_a_player_witness :
    moveHandler server0 6 user2 3 (Except.ok game10) (Except.ok ()) (Except.ok ())
        game10 = (server0, [sendError 6 notAPlayerMsg]) ∧
    countLogs (moveHandler server0 6 user2 3 (Except.ok game10) (Except.ok ())
        (Except.ok ()) game10).2 = 0 :=
  ⟨(move_not_a_player server0 6 user2 3 (Except.ok game10) (Except.ok ())
      (Except.ok ()) game10 (by decide)).1,
   (move_not_a_player server0 6 user2 3 (Except.ok game10) (Except.ok ())
      (Except.ok ()) game10 (by decide)).2.1⟩

/-- Claim C4: when the mutation step fails in the game service, the handler
(shown for join-game, new-game, make-move and remove-game) creates no Log
entry, performs no room change and no broadcast, and delivers exactly one
error-message, to the initiating connection only: every effect it emits is
a targeted emit to the caller. -/
theorem mutation_failure_caller_only (s : Server) (sid : SocketId) (user : User)
    (gameNumber : GameNumber) (msg : String) (lg lg2 : Except String Unit)
    (svcJoin : Except String Game) (refreshed found : Game)
    (closeRes : Except String Unit)
    (hplayer : user.currentGames.any (fun g => g.number == gameNumber) = true) :
    (joinGameHandler s sid user (Except.error msg) lg refreshed
      = (s, [Effect.emit sid "" Payload.empty, sendError sid msg])) ∧
    countLogs (joinGameHandler s sid user (Except.error msg) lg refreshed).2 = 0 ∧
    countBroadcasts (joinGameHandler s sid user (Except.error msg) lg refreshed).2 = 0 ∧
    countRoomChanges (joinGameHandler s sid user (Except.error msg) lg refreshed).2 = 0 ∧
    countErrorsTo sid (joinGameHandler s sid user (Except.error msg) lg refreshed).2 = 1 ∧
    countErrorsNotTo sid (joinGameHandler s sid user (Except.error msg) lg refreshed).2
      = 0 ∧
    (∀ e ∈ (joinGameHandler s sid user (Except.error msg) lg refreshed).2,
      ∃ ev p, e = Effect.emit sid ev p) ∧
    (newGameHandler s sid user (Except.error msg) lg svcJoin lg2 refreshed
      = (s, [sendError sid msg])) ∧
    (moveHandler s sid user gameNumber (Except.error msg) lg lg2 refreshed
      = (s, [sendError sid msg])) ∧
    (removeGameHandler s sid gameNumber found (Except.error msg) closeRes
      = (s, [sendError sid msg])) := by
  have hmove : moveHandler s sid user gameNumber (Except.error msg) lg lg2 refreshed
      = (s, [sendError sid msg]) := by
    unfold moveHandler
    rw [hplayer]
    simp
  refine ⟨rfl, ?_, ?_, ?_, ?_, ?_, ?_, rfl, hmove, rfl⟩
  · simp [joinGameHandler, countLogs, isLogEffect, sendError, List.countP_cons]
  · simp [joinGameHandler, countBroadcasts, isBroadcast, sendError, List.countP_cons]
  · simp [joinGameHandler, countRoomChanges, isRoomChange, sendError, List.countP_cons]
  · simp [joinGameHandler, countErrorsTo, isErrorTo, sendError, List.countP_cons]
  · simp [joinGameHandler, countErrorsNotTo, isErrorNotTo, sendError, List.countP_cons]
  · intro e he
    simp [joinGameHandler, sendError] at he
    rcases he with rfl | rfl
    · exact ⟨"", Payload.empty, rfl⟩
    · exact ⟨"error-message", Payload.errorMsg msg, rfl⟩

/-- Witness for C4: user 1 issuing a failing join of game number 3 gets the
empty emit plus one error-message and nothing else; the other handlers fail
with just the error-message. -/
theorem mutation_failure_caller_only_witness :
    (joinGameHandler server0 5 user1 (Except.error "full") (Except.ok ()) game10
      = (server0, [Effect.emit 5 "" Payload.empty, sendError 5 "full"])) ∧
    countLogs (joinGameHandler server0 5 user1 (Except.error "full") (Except.ok ())
        game10).2 = 0 ∧
    (removeGameHandler server0 5 3 game10 (Except.error "denied") (Except.ok ())
      = (server0, [sendError 5 "denied"])) :=
  ⟨(mutation_failure_caller_only server0 5 user1 3 "full" (Except.ok ())
      (Except.ok ()) (Except.ok game10) game10 game10 (Except.ok ()) (by decide)).1,
   (mutation_failure_caller_only server0 5 user1 3 "full" (Except.ok ())
      (Except.ok ()) (Except.ok game10) game10 game10 (Except.ok ()) (by decide)).2.1,
   (mutation_failure_caller_only server0 5 user1 3 "denied" (Except.ok ())
      (Except.ok ()) (Except.ok game10) game10 game10 (Except.ok ()) (by decide)).2.2.2.2.2.2.2.2.2⟩

theorem sendGame_mem_of (s : Server) (g : Game) (sid : SocketId) (u : User)
    (hmem : sid ∈ s.roomSockets g.id) (hu : s.userOf sid = some u) :
    Effect.emit sid "update-opened-game" (Payload.forUser g.id u.id)
      ∈ sendGameToGameUsers s g := by
  unfold sendGameToGameUsers
  rw [if_neg (List.ne_nil_of_mem hmem)]
  exact List.mem_filterMap.mpr ⟨sid, hmem, by rw [hu]⟩

/-- Claim C9: a room-wide state broadcast delivers only to connections
joined to the room; every delivered message is the per-viewer projection of
the game for the receiving connection's own attached user; a connection
with an identity in the room does receive its own projection, and a
connection without identity receives nothing. -/
theorem room_broadcast_per_viewer (s : Server) (g : Game) :
    (∀ e ∈ sendGameToGameUsers s g, ∃ sid u,
        sid ∈ s.roomSockets g.id ∧ s.userOf sid = some u ∧
        e = Effect.emit sid "update-opened-game" (Payload.forUser g.id u.id)) ∧
    (∀ sid u, sid ∈ s.roomSockets g.id → s.userOf sid = some u →
      Effect.emit sid "update-opened-game" (Payload.forUser g.id u.id)
        ∈ sendGameToGameUsers s g) ∧
    (∀ sid, s.userOf sid = none →
      ∀ ev p, Effect.emit sid ev p ∉ sendGameToGameUsers s g) := by
  refine ⟨mem_sendGameToGameUsers s g, sendGame_mem_of s g, ?_⟩
  intro sid hnone ev p hmem
  obtain ⟨sid2, u, _, hu, he⟩ := mem_sendGameToGameUsers s g _ hmem
  cases he
  rw [hnone] at hu
  cases hu

/-- Witness for C9: in the sample room, socket 5 receives the projection
for its own user 1, and the anonymous socket 7 receives nothing. -/
theorem room_broadcast_per_viewer_witness :
    Effect.emit 5 "update-opened-game" (Payload.forUser game10.id user1.id)
      ∈ sendGameToGameUsers server0 game10 ∧
    Effect.emit 7 "update-opened-game" (Payload.forUser game10.id user1.id)
      ∉ sendGameToGameUsers server0 game10 :=
  ⟨(room_broadcast_per_viewer server0 game10).2.1 5 user1 (by decide) (by decide),
   (room_broadcast_per_viewer server0 game10).2.2 7 (by decide) "update-opened-game"
     (Payload.forUser game10.id user1.id)⟩

/-- Counterexample to C1: a fully successful new-game command (the create
succeeds, its log succeeds, and the internal join-game call it makes also
succeeds with its own log) appends two Log entries, a create and a join,
not exactly one. -/
theorem newGame_single_log_counterexample :
    countLogs (newGameHandler server0 5 user1 (Except.ok game10) (Except.ok ())
        (Except.ok game10) (Except.ok ()) game10).2 = 2 ∧
    countLogsOfType "create" (newGameHandler server0 5 user1 (Except.ok game10)
        (Except.ok ()) (Except.ok game10) (Except.ok ()) game10).2 = 1 ∧
    countLogsOfType "join" (newGameHandler server0 5 user1 (Except.ok game10)
        (Except.ok ()) (Except.ok game10) (Except.ok ()) game10).2 = 1 := by
  decide

/-- Claim C1 (amended): a committed command appends exactly one Log entry
of its designated type, with three exceptions: a make-move that leaves the
game finished appends two entries, move then finish; a new-game command,
whose handler invokes the join-game path after its create log, appends two
entries, create then join; and a remove-game command appends zero entries,
its handler creating no log at all (repeat-game is the composition of the
close-game and new-game commands and appends their entries). Proved here
for the embedded handlers: one entry for join-game, one for a
non-finishing make-move, two for a finishing make-move, two for new-game,
zero for remove-game. -/
theorem committed_command_log_counts (s : Server) (sid : SocketId) (user : User)
    (gameNumber : GameNumber) (game refreshed found : Game)
    (hplayer : user.currentGames.any (fun gr => gr.number == gameNumber) = true) :
    countLogs (joinGameHandler s sid user (Except.ok game) (Except.ok ())
        refreshed).2 = 1 ∧
    countLogsOfType "join" (joinGameHandler s sid user (Except.ok game)
        (Except.ok ()) refreshed).2 = 1 ∧
    (game.state ≠ GAME_FINISHED →
      countLogs (moveHandler s sid user gameNumber (Except.ok game) (Except.ok ())
          (Except.ok ()) refreshed).2 = 1 ∧
      countLogsOfType "move" (moveHandler s sid user gameNumber (Except.ok game)
          (Except.ok ()) (Except.ok ()) refreshed).2 = 1) ∧
    (game.state = GAME_FINISHED →
      (moveHandler s sid user gameNumber (Except.ok game) (Except.ok ())
          (Except.ok ()) refreshed).2
        = Effect.createLog "move" user.id game.id ::
          Effect.createLog "finish" user.id game.id ::
          sendGameToGameUsers s refreshed ++
          [Effect.emitAll "update-game" (Payload.forAll refreshed.id)] ∧
      countLogs (moveHandler s sid user gameNumber (Except.ok game) (Except.ok ())
          (Except.ok ()) refreshed).2 = 2) ∧
    countLogs (newGameHandler s sid user (Except.ok game) (Except.ok ())
        (Except.ok game) (Except.ok ()) refreshed).2 = 2 ∧
    countLogsOfType "create" (newGameHandler s sid user (Except.ok game)
        (Except.ok ()) (Except.ok game) (Except.ok ()) refreshed).2 = 1 ∧
    countLogsOfType "join" (newGameHandler s sid user (Except.ok game)
        (Except.ok ()) (Except.ok game) (Except.ok ()) refreshed).2 = 1 ∧
    countLogs (removeGameHandler s sid gameNumber found (Except.ok ())
        (Except.ok ())).2 = 0 := by
  have hjoin : (joinGameHandler s sid user (Except.ok game) (Except.ok ())
      refreshed).2
      = Effect.createLog "join" user.id game.id ::
        Effect.joinRoom sid game.id ::
        sendGameToGameUsers (s.join sid game.id) refreshed ++
        [Effect.emitAll "update-game" (Payload.forAll refreshed.id)] := rfl
  refine ⟨?_, ?_, ?_, ?_, ?_, ?_, ?_, ?_⟩
  · rw [hjoin]
    simp [countLogs, List.countP_cons, List.countP_append, isLogEffect,
      countP_sendGame_zero _ _ isLogEffect (fun _ _ _ => rfl)]
  · rw [hjoin]
    simp [countLogsOfType, List.countP_cons, List.countP_append, isLogOfType,
      countP_sendGame_zero _ _ (isLogOfType "join") (fun _ _ _ => rfl)]
  · intro hne
    have hb : (game.state == GAME_FINISHED) = false := beq_eq_false_iff_ne.mpr hne
    have hm : (moveHandler s sid user gameNumber (Except.ok game) (Except.ok ())
        (Except.ok ()) refreshed).2
        = Effect.createLog "move" user.id game.id ::
          sendGameToGameUsers s refreshed := by
      unfold moveHandler
      rw [hplayer]
      simp [hb]
    rw [hm]
    constructor
    · simp [countLogs, List.countP_cons, isLogEffect,
        countP_sendGame_zero _ _ isLogEffect (fun _ _ _ => rfl)]
    · simp [countLogsOfType, List.countP_cons, isLogOfType,
        countP_sendGame_zero _ _ (isLogOfType "move") (fun _ _ _ => rfl)]
  · intro heq
    have hb : (game.state == GAME_FINISHED) = true := beq_iff_eq.mpr heq
    have hm : (moveHandler s sid user gameNumber (Except.ok game) (Except.ok ())
        (Except.ok ()) refreshed).2
        = Effect.createLog "move" user.id game.id ::
          Effect.createLog "finish" user.id game.id ::
          sendGameToGameUsers s refreshed ++
          [Effect.emitAll "update-game" (Payload.forAll refreshed.id)] := by
      unfold moveHandler
      rw [hplayer]
      simp [hb]
    refine ⟨hm, ?_⟩
    rw [hm]
    simp [countLogs, List.countP_cons, List.countP_append, isLogEffect,
      countP_sendGame_zero _ _ isLogEffect (fun _ _ _ => rfl)]
  · show countLogs (Effect.createLog "create" user.id game.id ::
        Effect.emitAll "new-game" (Payload.forAll game.id) ::
        (joinGameHandler s sid user (Except.ok game) (Except.ok ()) refreshed).2) = 2
    rw [hjoin]
    simp [countLogs, List.countP_cons, List.countP_append, isLogEffect,
      countP_sendGame_zero _ _ isLogEffect (fun _ _ _ => rfl)]
  · show countLogsOfType "create" (Effect.createLog "create" user.id game.id ::
        Effect.emitAll "new-game" (Payload.forAll game.id) ::
        (joinGameHandler s sid user (Except.ok game) (Except.ok ()) refreshed).2) = 1
    rw [hjoin]
    simp [countLogsOfType, List.countP_cons, List.countP_append, isLogOfType,
      countP_sendGame_zero _ _ (isLogOfType "create") (fun _ _ _ => rfl)]
  · show countLogsOfType "join" (Effect.createLog "create" user.id game.id ::
        Effect.emitAll "new-game" (Payload.forAll game.id) ::
        (joinGameHandler s sid user (Except.ok game) (Except.ok ()) refreshed).2) = 1
    rw [hjoin]
    simp [countLogsOfType, List.countP_cons, List.countP_append, isLogOfType,
      countP_sendGame_zero _ _ (isLogOfType "join") (fun _ _ _ => rfl)]
  · show countLogs (Effect.closeInvites found.id ::
        kickUsersFromGame s found ++
        [Effect.emitAll "remove-game" (Payload.gameNum gameNumber)]) = 0
    simp [countLogs, List.countP_cons, List.countP_append, isLogEffect,
      countP_kick_zero _ _ isLogEffect (fun _ _ _ => rfl)]

/-- Witness for C1 (amended): for user 1 in the sample room, a committed
join appends one log, a committed finishing move appends two, a fully
committed new-game appends two, and a committed remove-game appends
none. -/
theorem committed_command_log_counts_witness :
    countLogs (joinGameHandler server0 5 user1 (Except.ok game10) (Except.ok ())
        game10).2 = 1 ∧
    countLogs (moveHandler server0 5 user1 3 (Except.ok game10fin) (Except.ok ())
        (Except.ok ()) game10).2 = 2 ∧
    countLogs (newGameHandler server0 5 user1 (Except.ok game10) (Except.ok ())
        (Except.ok game10) (Except.ok ()) game10).2 = 2 ∧
    countLogs (removeGameHandler server0 5 3 game10 (Except.ok ())
        (Except.ok ())).2 = 0 :=
  ⟨(committed_command_log_counts server0 5 user1 3 game10 game10 game10
      (by decide)).1,
   ((committed_command_log_counts server0 5 user1 3 game10fin game10 game10
      (by decide)).2.2.2.1 (by decide)).2,
   (committed_command_log_counts server0 5 user1 3 game10 game10 game10
      (by decide)).2.2.2.2.1,
   (committed_command_log_counts server0 5 user1 3 game10 game10 game10
      (by decide)).2.2.2.2.2.2.2⟩

/-- Counterexample to C3: a successful remove-game leaves the room index
untouched (the watchers on sockets 5 and 6 stay in room 10), and the
identity-less socket 7 in the room receives no kick signal, contrary to the
claim that every connection in the room is kicked and removed. -/
theorem removeGame_room_index_counterexample :
    (removeGameHandler server0 9 3 game10 (Except.ok ()) (Except.ok ())).1
      = server0 ∧
    server0.roomSockets game10.id = [5, 6, 7] ∧
    Effect.emit 7 "update-opened-game" Payload.nullGame
      ∉ (removeGameHandler server0 9 3 game10 (Except.ok ()) (Except.ok ())).2 := by
  decide

/-- Claim C3 (amended): on a successful remove-game, every room member with
an attached user identity receives the room-kick signal (update-opened-game
with a null payload) and identity-less members receive nothing; all invites
for the game are closed and the global remove-game broadcast carries the
game number; the handler does not modify the room index. -/
theorem removeGame_kick_and_cleanup (s : Server) (sid : SocketId)
    (gameNumber : GameNumber) (found : Game) :
    (removeGameHandler s sid gameNumber found (Except.ok ()) (Except.ok ())).1 = s ∧
    (∀ sock u, sock ∈ s.roomSockets found.id → s.userOf sock = some u →
      Effect.emit sock "update-opened-game" Payload.nullGame
        ∈ (removeGameHandler s sid gameNumber found (Except.ok ()) (Except.ok ())).2) ∧
    (∀ sock, s.userOf sock = none → ∀ ev p,
      Effect.emit sock ev p
        ∉ (removeGameHandler s sid gameNumber found (Except.ok ()) (Except.ok ())).2) ∧
    Effect.closeInvites found.id
      ∈ (removeGameHandler s sid gameNumber found (Except.ok ()) (Except.ok ())).2 ∧
    Effect.emitAll "remove-game" (Payload.gameNum gameNumber)
      ∈ (removeGameHandler s sid gameNumber found (Except.ok ()) (Except.ok ())).2 ∧
    countRoomChanges
      (removeGameHandler s sid gameNumber found (Except.ok ()) (Except.ok ())).2
      = 0 := by
  have heffs : (removeGameHandler s sid gameNumber found (Except.ok ())
      (Except.ok ())).2
      = Effect.closeInvites found.id ::
        kickUsersFromGame s found ++
        [Effect.emitAll "remove-game" (Payload.gameNum gameNumber)] := rfl
  refine ⟨rfl, ?_, ?_, ?_, ?_, ?_⟩
  · intro sock u hmem hu
    rw [heffs]
    exact List.mem_cons_of_mem _
      (List.mem_append_left _ (kick_mem_of s found sock u hmem hu))
  · intro sock hnone ev p hmem
    rw [heffs] at hmem
    rcases List.mem_cons.mp hmem with h | hmem2
    · cases h
    · rcases List.mem_append.mp hmem2 with h | h
      · obtain ⟨sid2, u, _, hu, he⟩ := mem_kickUsersFromGame s found _ h
        cases he
        rw [hnone] at hu
        cases hu
      · cases List.mem_singleton.mp h
  · rw [heffs]
    exact List.mem_cons_self _ _
  · rw [heffs]
    exact List.mem_cons_of_mem _ (List.mem_append_right _ (List.mem_singleton.mpr rfl))
  · rw [heffs]
    simp [countRoomChanges, List.countP_cons, List.countP_append, isRoomChange,
      countP_kick_zero _ _ isRoomChange (fun _ _ _ => rfl)]

/-- Witness for C3 (amended): in the sample room, the watcher on socket 6
receives the kick signal, the invite close and the global remove-game
broadcast happen, and the room index is unchanged. -/
theorem removeGame_kick_and_cleanup_witness :
    (removeGameHandler server0 9 3 game10 (Except.ok ()) (Except.ok ())).1
      = server0 ∧
    Effect.emit 6 "update-opened-game" Payload.nullGame
      ∈ (removeGameHandler server0 9 3 game10 (Except.ok ()) (Except.ok ())).2 ∧
    Effect.emitAll "remove-game" (Payload.gameNum 3)
      ∈ (removeGameHandler server0 9 3 game10 (Except.ok ()) (Except.ok ())).2 :=
  ⟨(removeGame_kick_and_cleanup server0 9 3 game10).1,
   (removeGame_kick_and_cleanup server0 9 3 game10).2.1 6 user2 (by decide)
     (by decide),
   (removeGame_kick_and_cleanup server0 9 3 game10).2.2.2.2.1⟩

end ZGames
